import Mathlib

/-!
Verification development for the notebook toolbox (notebook_v1.py).

The Python module defines a document model (Cell, CodeCell, MarkdownCell,
Notebook) parsed from a nested mapping, and three converters:
PyPercentSerializer.to_py_percent, Serializer.serialize / Serializer.to_file,
and Outliner.outline.  This file gives a shallow embedding of those
definitions and proves (or refutes) the specified properties about them.

Conventions of the embedding:
* Nested mapping values (the output of the external loader) are modelled by
  the inductive type `J` (strings, integers, None, lists, dicts).
* Python exceptions are modelled by the `Except PyError` monad: KeyError,
  AttributeError, TypeError, ValueError, IndexError.  A raised exception is
  an `.error` result, so no partial object is ever produced.
* Machine strings are Lean `String` (lists of characters); Python slicing
  `s[:-n]` is translated as taking the first `length - n` characters.
* The Python classes store whatever value the mapping holds.  The embedding
  extracts the typed payload (`id`, `source`, `cell_type` as strings) at
  construction; Python would defer a type failure to first use, but no
  claim distinguishes the two behaviours.  The `execution_count` attribute
  of `CodeCell` is conditionally set in Python, hence it is modelled as an
  `Option J`: `none` means the attribute was never assigned, and reading it
  then is an AttributeError.
-/

/-- Values of the nested mapping structure produced by the external loader
(a subset of Python values: str, int, None, list, dict with str keys). -/
inductive J where
  | str (s : String)
  | int (n : Int)
  | null
  | list (items : List J)
  | dict (entries : List (String × J))

/-- Python exceptions that the embedded code can raise. -/
inductive PyError where
  | keyError (key : String)
  | attributeError (attr : String)
  | typeError (msg : String)
  | valueError (msg : String)
  | indexError (msg : String)
deriving DecidableEq

/-- Python dictionary subscript `d[k]`: the value, or a KeyError. -/
def dget (d : List (String × J)) (k : String) : Except PyError J :=
  match d.lookup k with
  | some v => Except.ok v
  | none => Except.error (PyError.keyError k)

/-- Require a string value (Python would fail on first string use). -/
def J.asStr : J → Except PyError String
  | J.str s => Except.ok s
  | _ => Except.error (PyError.typeError "str expected")

/-- Require a list value (Python would fail on iteration). -/
def J.asList : J → Except PyError (List J)
  | J.list l => Except.ok l
  | _ => Except.error (PyError.typeError "list expected")

/-- Require a dict value (Python would fail on subscripting). -/
def J.asDict : J → Except PyError (List (String × J))
  | J.dict d => Except.ok d
  | _ => Except.error (PyError.typeError "dict expected")

/-- Require a list of strings (Python would fail on first string use). -/
def J.asStrList : J → Except PyError (List String)
  | J.list l => l.mapM J.asStr
  | _ => Except.error (PyError.typeError "list expected")

/-- Python equality test between a mapping value and a string literal
(`cell["cell_type"] == "markdown"`): values of another type compare unequal. -/
def jEqStr (j : J) (s : String) : Bool :=
  match j with
  | J.str t => t == s
  | _ => false

mutual

/-- Python `repr` of a mapping value, as produced by `str()` on dicts and
lists.  Quote escaping inside string payloads is not modelled; the concrete
inputs used below contain no quotes or backslashes, where this agrees with
Python. -/
def pyRepr : J → String
  | J.str s => "\x27" ++ s ++ "\x27"
  | J.int n => toString n
  | J.null => "None"
  | J.list l => "[" ++ pyReprItems l ++ "]"
  | J.dict d => "\x7b" ++ pyReprEntries d ++ "\x7d"

/-- Comma-separated reprs of list items. -/
def pyReprItems : List J → String
  | [] => ""
  | [x] => pyRepr x
  | x :: y :: xs => pyRepr x ++ ", " ++ pyReprItems (y :: xs)

/-- Comma-separated reprs of dict entries. -/
def pyReprEntries : List (String × J) → String
  | [] => ""
  | [(k, v)] => "\x27" ++ k ++ "\x27: " ++ pyRepr v
  | (k, v) :: y :: xs => "\x27" ++ k ++ "\x27: " ++ pyRepr v ++ ", " ++ pyReprEntries (y :: xs)

end

/-- Python `str()` of a mapping value, as used by f-strings: a string is
itself, everything else formats as its repr (`str(None)` is "None"). -/
def pyStr (j : J) : String :=
  match j with
  | J.str s => s
  | _ => pyRepr j

/-- The common data stored by `Cell.__init__`: `self.id`, `self.source`,
`self.type`. -/
structure CellData where
  id : String
  source : List String
  type : String

/-- A constructed cell: the Python object is either a `MarkdownCell` or a
`CodeCell` instance (`isinstance` dispatch distinguishes them).  For a
`CodeCell`, `execution_count` is `some v` when the attribute was assigned
(that happens exactly when `cell_type == "code"`), `none` otherwise. -/
inductive NbCell where
  | markdownCell (data : CellData)
  | codeCell (data : CellData) (execution_count : Option J)

/-- The shared `CellData` of either variant. -/
def NbCell.data : NbCell → CellData
  | NbCell.markdownCell d => d
  | NbCell.codeCell d _ => d

/-- Attribute `cell.type`. -/
def NbCell.type (c : NbCell) : String := c.data.type

/-- Attribute `cell.id`. -/
def NbCell.id (c : NbCell) : String := c.data.id

/-- Attribute `cell.source`. -/
def NbCell.source (c : NbCell) : List String := c.data.source

/-- Attribute read `cell.execution_count`: an AttributeError unless the
cell is a `CodeCell` on which the attribute was assigned. -/
def execCountAttr : NbCell → Except PyError J
  | NbCell.codeCell _ (some ec) => Except.ok ec
  | NbCell.codeCell _ none => Except.error (PyError.attributeError "execution_count")
  | NbCell.markdownCell _ => Except.error (PyError.attributeError "execution_count")

/-- Embedding of `Cell.__init__`: reads `id`, `source`, `cell_type` from the
mapping, in that order (each read can raise KeyError). -/
def Cell.init (ipynb : List (String × J)) : Except PyError CellData :=
  match dget ipynb "id" with
  | Except.error e => Except.error e
  | Except.ok idJ =>
    match dget ipynb "source" with
    | Except.error e => Except.error e
    | Except.ok srcJ =>
      match dget ipynb "cell_type" with
      | Except.error e => Except.error e
      | Except.ok tyJ =>
        match J.asStr idJ with
        | Except.error e => Except.error e
        | Except.ok i =>
          match J.asStrList srcJ with
          | Except.error e => Except.error e
          | Except.ok src =>
            match J.asStr tyJ with
            | Except.error e => Except.error e
            | Except.ok ty => Except.ok ⟨i, src, ty⟩

/-- Embedding of `CodeCell.__init__`: runs `Cell.__init__`, then assigns
`execution_count` from the mapping only when `self.type == "code"`. -/
def CodeCell.init (ipynb : List (String × J)) : Except PyError NbCell :=
  match Cell.init ipynb with
  | Except.error e => Except.error e
  | Except.ok base =>
    if base.type == "code" then
      match dget ipynb "execution_count" with
      | Except.error e => Except.error e
      | Except.ok ec => Except.ok (NbCell.codeCell base (some ec))
    else Except.ok (NbCell.codeCell base none)

/-- Embedding of `MarkdownCell.__init__`: just `Cell.__init__`. -/
def MarkdownCell.init (ipynb : List (String × J)) : Except PyError NbCell :=
  match Cell.init ipynb with
  | Except.error e => Except.error e
  | Except.ok base => Except.ok (NbCell.markdownCell base)

/-- A constructed `Notebook`: `self.version` and `self.cells`. -/
structure Notebook where
  version : String
  cells : List NbCell

/-- Dispatch of `Notebook.__init__` over one entry of `ipynb["cells"]`:
subscript the entry, read its `cell_type`, build a `MarkdownCell` when it
equals "markdown" and a `CodeCell` otherwise. -/
def buildCell (c : J) : Except PyError NbCell :=
  match J.asDict c with
  | Except.error e => Except.error e
  | Except.ok cd =>
    match dget cd "cell_type" with
    | Except.error e => Except.error e
    | Except.ok ty =>
      if jEqStr ty "markdown" then MarkdownCell.init cd else CodeCell.init cd

/-- Embedding of `Notebook.__init__`: formats the version from `nbformat`
and `nbformat_minor` (f-strings joined with "."), then builds the cell list
from `ipynb["cells"]` in order.  Key reads happen in source order, so the
first missing key determines the KeyError. -/
def Notebook.init (ipynb : List (String × J)) : Except PyError Notebook :=
  match dget ipynb "nbformat" with
  | Except.error e => Except.error e
  | Except.ok nf =>
    match dget ipynb "nbformat_minor" with
    | Except.error e => Except.error e
    | Except.ok nfm =>
      match dget ipynb "cells" with
      | Except.error e => Except.error e
      | Except.ok cellsJ =>
        match J.asList cellsJ with
        | Except.error e => Except.error e
        | Except.ok cl =>
          match cl.mapM buildCell with
          | Except.error e => Except.error e
          | Except.ok cells => Except.ok ⟨pyStr nf ++ "." ++ pyStr nfm, cells⟩

/-- Python slice `s[:-1]`: all but the last character (empty stays empty). -/
def pyDropLast1 (s : String) : String := String.mk (s.data.take (s.data.length - 1))

/-- Python slice `s[:-2]`: all but the last two characters. -/
def pyDropLast2 (s : String) : String := String.mk (s.data.take (s.data.length - 2))

/-- Python `str.capitalize()`: first character uppercased, rest lowercased. -/
def pyCapitalize (s : String) : String :=
  match s.data with
  | [] => ""
  | c :: rest => String.mk (c.toUpper :: rest.map Char.toLower)

/-- Python subscript `s[0]` on a string (IndexError when empty). -/
def pyIdx0 (s : String) : Except PyError Char :=
  match s.data with
  | [] => Except.error (PyError.indexError "0")
  | c :: _ => Except.ok c

/-- Python subscript `s[-1]` on a string (IndexError when empty). -/
def pyIdxLast (s : String) : Except PyError Char :=
  match s.data.getLast? with
  | some c => Except.ok c
  | none => Except.error (PyError.indexError "-1")

/-- Python `int()` applied to a one-character string: the digit value, or a
ValueError when the character is not a decimal digit. -/
def pyIntOfChar (c : Char) : Except PyError Int :=
  if c.isDigit then Except.ok ((c.toNat - 48 : Nat) : Int)
  else Except.error (PyError.valueError (String.singleton c))

/-- The text `PyPercentSerializer.to_py_percent` accumulates for one cell
before appending the two line breaks: dispatch on `cell.type == "markdown"`;
markdown source lines are prefixed with "# ", code source lines are verbatim. -/
def pcBlock (cell : NbCell) : String :=
  if cell.type == "markdown" then
    "# %% [markdown]\n" ++ String.join (cell.source.map (fun line => "# " ++ line))
  else
    "# %%\n" ++ String.join cell.source

/-- Embedding of `PyPercentSerializer.to_py_percent`: the loop accumulates
each cell block followed by two line breaks, then `text[:-2]` removes the
final two characters. -/
def to_py_percent (nb : Notebook) : String :=
  pyDropLast2 (String.join (nb.cells.map (fun c => pcBlock c ++ "\n\n")))

/-- Embedding of the per-cell branch of `Serializer.serialize`: dispatch by
`isinstance(cell, MarkdownCell)`; the other branch reads the
`execution_count` attribute, which raises an AttributeError when it was
never assigned.  Dict keys appear in the literal insertion order of the
source. -/
def serializeCell : NbCell → Except PyError J
  | NbCell.markdownCell d =>
    Except.ok (J.dict [("cell_type", J.str d.type), ("id", J.str d.id),
      ("metadata", J.dict []), ("source", J.list (d.source.map J.str))])
  | NbCell.codeCell d ec =>
    match ec with
    | some v =>
      Except.ok (J.dict [("cell_type", J.str d.type), ("execution_count", v),
        ("id", J.str d.id), ("metadata", J.dict []), ("outputs", J.list []),
        ("source", J.list (d.source.map J.str))])
    | none => Except.error (PyError.attributeError "execution_count")

/-- Embedding of `Serializer.serialize`: serializes the cells in order, then
computes `nbformat` as `int(self.notebook.version[0])` and `nbformat_minor`
as `int(self.notebook.version[-1])` - single characters sliced out of the
formatted version string. -/
def serialize (nb : Notebook) : Except PyError J :=
  match nb.cells.mapM serializeCell with
  | Except.error e => Except.error e
  | Except.ok cells =>
    match pyIdx0 nb.version with
    | Except.error e => Except.error e
    | Except.ok c0 =>
      match pyIntOfChar c0 with
      | Except.error e => Except.error e
      | Except.ok nf =>
        match pyIdxLast nb.version with
        | Except.error e => Except.error e
        | Except.ok cl =>
          match pyIntOfChar cl with
          | Except.error e => Except.error e
          | Except.ok nfm =>
            Except.ok (J.dict [("cells", J.list cells), ("metadata", J.dict []),
              ("nbformat", J.int nf), ("nbformat_minor", J.int nfm)])

/-- The text `Serializer.to_file` writes: `str(self.serialize())`, the
Python repr of the in-memory dict, not a JSON encoding. -/
def serializerToFileText (nb : Notebook) : Except PyError String :=
  match serialize nb with
  | Except.error e => Except.error e
  | Except.ok d => Except.ok (pyStr d)

/-- The prefix `Outliner.outline` puts before source line `i` of a cell with
`n` source lines (only used on the branch where `n` is not 1). -/
def outlineMarker (n i : Nat) : String :=
  if i = 0 then "    ┌  "
  else if i = n - 1 then "    └  "
  else "    │  "

/-- The source-line section `Outliner.outline` renders for one cell: a
single-line source gets "    | ", otherwise each line gets its position
marker.  Lines keep their own trailing newlines. -/
def outlineSource (source : List String) : String :=
  if source.length ≠ 1 then
    String.join (source.enum.map (fun p => outlineMarker source.length p.1 ++ p.2))
  else "    | " ++ source.headD ""

/-- The text `Outliner.outline` accumulates for one cell: the header line
(with ` ({execution_count})` appended only for cells whose `type` is
"code"), a newline, the source section, and a final newline.  Reading
`execution_count` can raise an AttributeError. -/
def outlineCell (cell : NbCell) : Except PyError String :=
  if cell.type == "code" then
    match execCountAttr cell with
    | Except.error e => Except.error e
    | Except.ok ec =>
      Except.ok ("└─▶ " ++ pyCapitalize cell.type ++ " cell #" ++ cell.id ++
        " (" ++ pyStr ec ++ ")" ++ "\n" ++ outlineSource cell.source ++ "\n")
  else
    Except.ok ("└─▶ " ++ pyCapitalize cell.type ++ " cell #" ++ cell.id ++
      "\n" ++ outlineSource cell.source ++ "\n")

/-- Embedding of `Outliner.outline`: the version header line, the cell
blocks in order, and `text[:-1]` trimming the final character. -/
def outline (nb : Notebook) : Except PyError String :=
  match nb.cells.mapM outlineCell with
  | Except.error e => Except.error e
  | Except.ok blocks =>
    Except.ok (pyDropLast1 ("Jupyter Notebook v" ++ nb.version ++ "\n" ++ String.join blocks))

/-- Joining text blocks with a separator: no separator before the first or
after the last block (the "join cell blocks with a single blank line
separator" reading of the spec). -/
def sepJoin (sep : String) : List String → String
  | [] => ""
  | [b] => b
  | b :: c :: rest => b ++ sep ++ sepJoin sep (c :: rest)

/-- Whether a string ends with a line break. -/
def endsNl (s : String) : Bool := s.data.getLast? == some '\n'

/-- A cell in canonical source form for the percent format: its source is
nonempty and the last source line is nonempty and has no trailing newline. -/
def lastLineOk (c : NbCell) : Bool :=
  match c.source.getLast? with
  | some l => (!(l == "")) && (!(endsNl l))
  | none => false

/-- The invariant `Notebook.__init__` establishes: a `MarkdownCell` is built
exactly when the stored `cell_type` is "markdown". -/
def coherentB : NbCell → Bool
  | NbCell.markdownCell d => d.type == "markdown"
  | NbCell.codeCell d _ => !(d.type == "markdown")

/-- Modelled from the spec (section 4.4): the percent-format block the spec
prescribes for one cell, dispatching on the cell variant - markdown cells
get "# %% [markdown]" and per-line "# " prefixes, code cells get "# %%" and
verbatim lines, each followed by two line breaks. -/
def percentSpecBlock : NbCell → String
  | NbCell.markdownCell d =>
    "# %% [markdown]\n" ++ String.join (d.source.map (fun line => "# " ++ line)) ++ "\n\n"
  | NbCell.codeCell d _ => "# %%\n" ++ String.join d.source ++ "\n\n"

/-- Modelled from the spec (section 4.4): emit each cell block with its two
trailing line breaks, then remove exactly the final two characters. -/
def percentSpec (nb : Notebook) : String :=
  pyDropLast2 (String.join (nb.cells.map percentSpecBlock))

/-- Whether a character list contains three consecutive line breaks. -/
def tripleNLAux : List Char → Bool
  | '\n' :: '\n' :: '\n' :: _ => true
  | _ :: rest => tripleNLAux rest
  | [] => false

/-- Whether a string contains three consecutive line breaks, i.e. more than
one pair of consecutive line breaks at one spot. -/
def hasTripleNL (s : String) : Bool := tripleNLAux s.data

/-- Substring search helper on character lists. -/
def hasSubAux (pat : List Char) : List Char → Bool
  | [] => pat.isPrefixOf ([] : List Char)
  | c :: rest => pat.isPrefixOf (c :: rest) || hasSubAux pat rest

/-- Whether `pat` occurs as a contiguous substring of `s`. -/
def hasSub (s pat : String) : Bool := hasSubAux pat.data s.data

/-- The first line of a text: everything before the first line break. -/
def firstLine (s : String) : String :=
  String.mk (s.data.takeWhile (fun c => !(c == '\n')))

/-- Number of occurrences of a character in a string. -/
def countChar (s : String) (c : Char) : Nat := s.data.count c

/-- A source line free of the outline marker characters, so that marker
occurrences in the rendered outline come only from the renderer. -/
def noMarkers (l : String) : Bool :=
  l.data.all (fun c => !(c == '┌' || c == '└' || c == '│' || c == '|'))

/-- The double-quote character of the JSON grammar. -/
def quoteChar : Char := Char.ofNat 34

/-- The opening-brace character of the JSON grammar. -/
def obraceChar : Char := Char.ofNat 123

/-- The closing-brace character of the JSON grammar. -/
def cbraceChar : Char := Char.ofNat 125

/-- Skip JSON whitespace. -/
def skipWs : List Char → List Char
  | [] => []
  | c :: rest =>
    if c == ' ' || c == '\n' || c == '\t' || c == '\r' then skipWs rest else c :: rest

/-- Consume a (possibly empty) run of decimal digits. -/
def digitsTail : List Char → List Char
  | [] => []
  | c :: rest => if c.isDigit then digitsTail rest else c :: rest

/-- Recognize a JSON number (integer or simple fraction), returning the
remaining input. -/
def jsonNumRest (cs : List Char) : Option (List Char) :=
  let cs2 := match cs with
    | c :: rest => if c == '-' then rest else c :: rest
    | [] => []
  match cs2 with
  | [] => none
  | c :: rest =>
    if c.isDigit then
      match digitsTail rest with
      | '.' :: r2 =>
        match r2 with
        | d :: r3 => if d.isDigit then some (digitsTail r3) else none
        | [] => none
      | other => some other
    else none

/-- Recognize the remainder of a JSON string after its opening quote. -/
def jsonStringRest : Nat → List Char → Option (List Char)
  | 0, _ => none
  | _ + 1, [] => none
  | fuel + 1, c :: rest =>
    if c == quoteChar then some rest
    else if c == '\\' then
      match rest with
      | _ :: r2 => jsonStringRest fuel r2
      | [] => none
    else jsonStringRest fuel rest

mutual

/-- Recognize one JSON value, returning the remaining input. -/
def jsonValRest : Nat → List Char → Option (List Char)
  | 0, _ => none
  | fuel + 1, cs =>
    match skipWs cs with
    | [] => none
    | c :: rest =>
      if c == quoteChar then jsonStringRest fuel rest
      else if c == obraceChar then jsonObjRest fuel rest true
      else if c == '[' then jsonArrRest fuel rest true
      else if c == 'n' then
        match rest with
        | 'u' :: 'l' :: 'l' :: r => some r
        | _ => none
      else if c == 't' then
        match rest with
        | 'r' :: 'u' :: 'e' :: r => some r
        | _ => none
      else if c == 'f' then
        match rest with
        | 'a' :: 'l' :: 's' :: 'e' :: r => some r
        | _ => none
      else jsonNumRest (c :: rest)

/-- Recognize the members of a JSON object after its opening brace. -/
def jsonObjRest : Nat → List Char → Bool → Option (List Char)
  | 0, _, _ => none
  | fuel + 1, cs, first =>
    match skipWs cs with
    | [] => none
    | c :: rest =>
      if first && (c == cbraceChar) then some rest
      else if c == quoteChar then
        match jsonStringRest fuel rest with
        | none => none
        | some r1 =>
          match skipWs r1 with
          | ':' :: r2 =>
            match jsonValRest fuel r2 with
            | none => none
            | some r3 =>
              match skipWs r3 with
              | c2 :: r4 =>
                if c2 == ',' then jsonObjRest fuel r4 false
                else if c2 == cbraceChar then some r4
                else none
              | [] => none
          | _ => none
      else none

/-- Recognize the elements of a JSON array after its opening bracket. -/
def jsonArrRest : Nat → List Char → Bool → Option (List Char)
  | 0, _, _ => none
  | fuel + 1, cs, first =>
    match skipWs cs with
    | [] => none
    | c :: rest =>
      if first && (c == ']') then some rest
      else
        match jsonValRest fuel (c :: rest) with
        | none => none
        | some r1 =>
          match skipWs r1 with
          | c2 :: r2 =>
            if c2 == ',' then jsonArrRest fuel r2 false
            else if c2 == ']' then some r2
            else none
          | [] => none

end

/-- Whether a text is a well-formed document of the canonical structured
interchange encoding (JSON): one value, possibly surrounded by whitespace. -/
def jsonWf (s : String) : Bool :=
  match jsonValRest (s.data.length + 8) s.data with
  | some rest => (skipWs rest).isEmpty
  | none => false

/-- The hello-world markdown cell of the source doctests. -/
def mdHello : NbCell :=
  NbCell.markdownCell ⟨"a9541506", ["Hello world!\n", "============\n", "Print `Hello world!`:"], "markdown"⟩

/-- The hello-world code cell of the source doctests. -/
def codeHello : NbCell :=
  NbCell.codeCell ⟨"b777420a", ["print(\"Hello world!\")"], "code"⟩ (some (J.int 1))

/-- The goodbye markdown cell of the source doctests. -/
def mdBye : NbCell := NbCell.markdownCell ⟨"a23ab5ac", ["Goodbye! 👋"], "markdown"⟩

/-- The hello-world notebook of the source doctests (format version 4.5). -/
def nbHello : Notebook := ⟨"4.5", [mdHello, codeHello, mdBye]⟩

/-- The loaded mapping of the hello-world notebook. -/
def dHello : List (String × J) :=
  [("cells", J.list
    [J.dict [("cell_type", J.str "markdown"), ("id", J.str "a9541506"),
      ("metadata", J.dict []),
      ("source", J.list [J.str "Hello world!\n", J.str "============\n",
        J.str "Print `Hello world!`:"])],
     J.dict [("cell_type", J.str "code"), ("execution_count", J.int 1),
      ("id", J.str "b777420a"), ("metadata", J.dict []), ("outputs", J.list []),
      ("source", J.list [J.str "print(\"Hello world!\")"])],
     J.dict [("cell_type", J.str "markdown"), ("id", J.str "a23ab5ac"),
      ("metadata", J.dict []), ("source", J.list [J.str "Goodbye! 👋"])]]),
   ("metadata", J.dict []), ("nbformat", J.int 4), ("nbformat_minor", J.int 5)]

/-- A loaded mapping with a two-digit major version (nbformat 10). -/
def docTenTwo : List (String × J) :=
  [("cells", J.list []), ("metadata", J.dict []),
   ("nbformat", J.int 10), ("nbformat_minor", J.int 2)]

/-- A loaded mapping with a two-digit major and minor version. -/
def docTenThirtyFour : List (String × J) :=
  [("cells", J.list []), ("metadata", J.dict []),
   ("nbformat", J.int 10), ("nbformat_minor", J.int 34)]

/-- A notebook whose first code cell has a source line with a trailing
newline on its last line - a form the data model allows. -/
def nbTrailingNl : Notebook :=
  ⟨"4.5", [NbCell.codeCell ⟨"c1", ["a\n"], "code"⟩ (some (J.int 1)),
           NbCell.codeCell ⟨"c2", ["b"], "code"⟩ (some (J.int 2))]⟩

/-- A loaded mapping whose only code cell has a null execution count. -/
def docNullCount : List (String × J) :=
  [("cells", J.list
    [J.dict [("cell_type", J.str "code"), ("execution_count", J.null),
      ("id", J.str "b777420a"), ("metadata", J.dict []), ("outputs", J.list []),
      ("source", J.list [J.str "print(1)"])]]),
   ("metadata", J.dict []), ("nbformat", J.int 4), ("nbformat_minor", J.int 5)]

/-- The notebook parsed from `docNullCount`. -/
def nbNullCount : Notebook :=
  ⟨"4.5", [NbCell.codeCell ⟨"b777420a", ["print(1)"], "code"⟩ (some J.null)]⟩

/-- A one-code-cell notebook used to inspect the file output encoding. -/
def nbSimpleCode : Notebook :=
  ⟨"4.5", [NbCell.codeCell ⟨"b777420a", ["print(1)"], "code"⟩ (some (J.int 1))]⟩

/-- The text `Serializer.to_file` writes for `nbSimpleCode`: the Python
repr of the dict, with single-quoted keys and strings. -/
def reprTextSimpleCode : String :=
  "\x7b\x27cells\x27: [\x7b\x27cell_type\x27: \x27code\x27, \x27execution_count\x27: 1, \x27id\x27: \x27b777420a\x27, \x27metadata\x27: \x7b\x7d, \x27outputs\x27: [], \x27source\x27: [\x27print(1)\x27]\x7d], \x27metadata\x27: \x7b\x7d, \x27nbformat\x27: 4, \x27nbformat_minor\x27: 5\x7d"

/-- The canonical JSON encoding of the same serialized mapping. -/
def jsonTextSimpleCode : String :=
  "\x7b\"cells\": [\x7b\"cell_type\": \"code\", \"execution_count\": 1, \"id\": \"b777420a\", \"metadata\": \x7b\x7d, \"outputs\": [], \"source\": [\"print(1)\"]\x7d], \"metadata\": \x7b\x7d, \"nbformat\": 4, \"nbformat_minor\": 5\x7d"

/-- A loaded mapping containing a cell whose `cell_type` is "raw" and which
has no `execution_count` key. -/
def docRawCell : List (String × J) :=
  [("nbformat", J.int 4), ("nbformat_minor", J.int 5),
   ("cells", J.list
    [J.dict [("id", J.str "r1"), ("source", J.list [J.str "raw text"]),
      ("cell_type", J.str "raw")]])]

/-- The notebook parsed from `docRawCell`: the fallback dispatch builds a
`CodeCell` whose `execution_count` attribute is never assigned. -/
def nbRawCell : Notebook := ⟨"4.5", [NbCell.codeCell ⟨"r1", ["raw text"], "raw"⟩ none]⟩

set_option maxRecDepth 10000

example : Notebook.init dHello = Except.ok nbHello := rfl

example : to_py_percent nbHello =
  "# %% [markdown]\n# Hello world!\n# ============\n# Print `Hello world!`:\n\n# %%\nprint(\"Hello world!\")\n\n# %% [markdown]\n# Goodbye! 👋" := rfl

example : outline nbHello = Except.ok
  "Jupyter Notebook v4.5\n└─▶ Markdown cell #a9541506\n    ┌  Hello world!\n    │  ============\n    └  Print `Hello world!`:\n└─▶ Code cell #b777420a (1)\n    | print(\"Hello world!\")\n└─▶ Markdown cell #a23ab5ac\n    | Goodbye! 👋" := rfl

example : serialize nbHello = Except.ok (J.dict
  [("cells", J.list
    [J.dict [("cell_type", J.str "markdown"), ("id", J.str "a9541506"),
      ("metadata", J.dict []),
      ("source", J.list [J.str "Hello world!\n", J.str "============\n",
        J.str "Print `Hello world!`:"])],
     J.dict [("cell_type", J.str "code"), ("execution_count", J.int 1),
      ("id", J.str "b777420a"), ("metadata", J.dict []), ("outputs", J.list []),
      ("source", J.list [J.str "print(\"Hello world!\")"])],
     J.dict [("cell_type", J.str "markdown"), ("id", J.str "a23ab5ac"),
      ("metadata", J.dict []), ("source", J.list [J.str "Goodbye! 👋"])]]),
   ("metadata", J.dict []), ("nbformat", J.int 4), ("nbformat_minor", J.int 5)]) := rfl

theorem stringExt {s t : String} (h : s.data = t.data) : s = t := by
  cases s
  cases t
  exact congrArg String.mk h

theorem strData_append (s t : String) : (s ++ t).data = s.data ++ t.data := rfl

theorem strData_mk (l : List Char) : (String.mk l).data = l := rfl

theorem join_foldl_data (l : List String) :
    ∀ s : String, (List.foldl (fun a b => a ++ b) s l).data = s.data ++ (l.map String.data).flatten := by
  induction l with
  | nil => intro s; simp
  | cons x xs ih =>
    intro s
    simp only [List.foldl, List.map, List.flatten_cons]
    rw [ih (s ++ x), strData_append, List.append_assoc]

theorem strJoin_data (l : List String) : (String.join l).data = (l.map String.data).flatten := by
  have h := join_foldl_data l ""
  simpa [String.join] using h

theorem strJoin_cons (s : String) (l : List String) :
    String.join (s :: l) = s ++ String.join l := by
  apply stringExt
  simp [strJoin_data, strData_append]

theorem strJoin_nil : String.join [] = "" := rfl

theorem strAppend_assoc (a b c : String) : a ++ b ++ c = a ++ (b ++ c) := by
  apply stringExt
  simp [strData_append]

theorem strAppend_empty (s : String) : s ++ "" = s := by
  apply stringExt
  simp [strData_append]

theorem strEmpty_append (s : String) : "" ++ s = s := by
  apply stringExt
  simp [strData_append]

theorem strJoin_concat (l : List String) (x : String) :
    String.join (l ++ [x]) = String.join l ++ x := by
  apply stringExt
  simp [strJoin_data, strData_append]

theorem pyDropLast2_append_two (s t : String) (h : t.data.length = 2) :
    pyDropLast2 (s ++ t) = s := by
  apply stringExt
  show List.take ((s.data ++ t.data).length - 2) (s.data ++ t.data) = s.data
  rw [List.length_append, h, Nat.add_sub_cancel]
  exact List.take_left s.data t.data

theorem pyDropLast2_append (s t : String) (h : 2 ≤ t.data.length) :
    pyDropLast2 (s ++ t) = s ++ pyDropLast2 t := by
  apply stringExt
  show List.take ((s.data ++ t.data).length - 2) (s.data ++ t.data) =
    s.data ++ List.take (t.data.length - 2) t.data
  rw [List.length_append,
    show s.data.length + t.data.length - 2 = s.data.length + (t.data.length - 2) by omega]
  exact List.take_append (t.data.length - 2)

theorem endsNl_append (s t : String) (h : t.data ≠ []) : endsNl (s ++ t) = endsNl t := by
  have ht : t.data.getLast?.isSome := by
    cases he : t.data.getLast? with
    | some c => rfl
    | none => exact absurd (List.getLast?_eq_none_iff.mp he) h
  simp only [endsNl, strData_append, List.getLast?_append]
  cases he : t.data.getLast? with
  | some c => rfl
  | none => rw [he] at ht; cases ht

theorem endsNl_empty : endsNl "" = false := rfl

theorem nn_data_len : ("\n\n" : String).data.length = 2 := rfl

theorem join_blocks_len (c : String) (rest : List String) :
    2 ≤ (String.join ((c :: rest).map (fun b => b ++ "\n\n"))).data.length := by
  rw [List.map, strJoin_cons, strData_append, List.length_append, strData_append,
    List.length_append, nn_data_len]
  omega

theorem percent_sepJoin (blocks : List String) :
    pyDropLast2 (String.join (blocks.map (fun b => b ++ "\n\n"))) = sepJoin "\n\n" blocks := by
  induction blocks with
  | nil => rfl
  | cons b rest ih =>
    cases rest with
    | nil =>
      rw [List.map, List.map, strJoin_cons, strJoin_nil, strAppend_empty]
      exact pyDropLast2_append_two b "\n\n" nn_data_len
    | cons c rest2 =>
      rw [List.map, strJoin_cons,
        pyDropLast2_append (b ++ "\n\n") _ (join_blocks_len c rest2), ih]
      rfl

theorem to_py_percent_eq_sepJoin (nb : Notebook) :
    to_py_percent nb = sepJoin "\n\n" (nb.cells.map pcBlock) := by
  show pyDropLast2 (String.join (nb.cells.map (fun c => pcBlock c ++ "\n\n"))) = _
  rw [show nb.cells.map (fun c => pcBlock c ++ "\n\n")
      = (nb.cells.map pcBlock).map (fun b => b ++ "\n\n") by rw [List.map_map]; rfl]
  exact percent_sepJoin (nb.cells.map pcBlock)

theorem pcBlock_ne_nil (c : NbCell) : (pcBlock c).data ≠ [] := by
  unfold pcBlock
  split <;>
    · rw [strData_append]
      intro h
      exact absurd (List.append_eq_nil.mp h).1 (by decide)

theorem ne_empty_data {l : String} (h : ¬ l = "") : l.data ≠ [] := by
  intro hd
  exact h (stringExt hd)

theorem endsNl_pcBlock (c : NbCell) (h : lastLineOk c = true) : endsNl (pcBlock c) = false := by
  unfold lastLineOk at h
  cases hl : c.source.getLast? with
  | none => rw [hl] at h; cases h
  | some l =>
    rw [hl] at h
    have hparts := Bool.and_eq_true_iff.mp h
    have hne : ¬ l = "" := by
      intro he
      rw [he] at hparts
      simp at hparts
    have hend : endsNl l = false := by
      have := hparts.2
      simpa using this
    have hld : l.data ≠ [] := ne_empty_data hne
    obtain ⟨ys, hys⟩ := List.getLast?_eq_some_iff.mp hl
    unfold pcBlock
    split
    · rw [hys, List.map_append, List.map, List.map, strJoin_concat,
        ← strAppend_assoc,
        endsNl_append _ ("# " ++ l) (by rw [strData_append]; simp),
        endsNl_append _ l hld]
      exact hend
    · rw [hys, strJoin_concat, ← strAppend_assoc, endsNl_append _ l hld]
      exact hend

theorem sepJoin_cons_ne_nil (sep : String) (c : String) (rest : List String)
    (h : c.data ≠ []) : (sepJoin sep (c :: rest)).data ≠ [] := by
  cases rest with
  | nil => exact h
  | cons d rest2 =>
    show ((c ++ sep) ++ sepJoin sep (d :: rest2)).data ≠ []
    rw [strData_append, strData_append]
    intro hnil
    exact absurd ((List.append_eq_nil.mp (List.append_eq_nil.mp hnil).1).1) h

theorem endsNl_sepJoin (blocks : List String)
    (h : ∀ b ∈ blocks, endsNl b = false ∧ b.data ≠ []) :
    endsNl (sepJoin "\n\n" blocks) = false := by
  induction blocks with
  | nil => rfl
  | cons b rest ih =>
    cases rest with
    | nil => exact (h b (List.mem_cons_self b [])).1
    | cons c rest2 =>
      show endsNl ((b ++ "\n\n") ++ sepJoin "\n\n" (c :: rest2)) = false
      rw [endsNl_append _ _ (sepJoin_cons_ne_nil "\n\n" c rest2
        (h c (List.mem_cons_of_mem b (List.mem_cons_self c rest2))).2)]
      exact ih (fun x hx => h x (List.mem_cons_of_mem b hx))

/-- Claim C5 (amended): for every Document in which each cell's source is
nonempty and its last source line is nonempty without a trailing newline,
the percent-format output is the cell blocks joined by exactly one blank
line (a single "\n\n" separator between consecutive blocks), no block ends
with a line break, and the output has no trailing blank line (it does not
even end with a line break).  As stated over all Documents the claim fails,
because a last source line may carry its own trailing newline (see the
counterexample). -/
theorem c5_percent_separation (nb : Notebook) (h : nb.cells.all lastLineOk = true) :
    to_py_percent nb = sepJoin "\n\n" (nb.cells.map pcBlock)
    ∧ (∀ b ∈ nb.cells.map pcBlock, endsNl b = false)
    ∧ endsNl (to_py_percent nb) = false := by
  have hall := List.all_eq_true.mp h
  have hb : ∀ b ∈ nb.cells.map pcBlock, endsNl b = false ∧ b.data ≠ [] := by
    intro b hbm
    obtain ⟨c, hc, rfl⟩ := List.mem_map.mp hbm
    exact ⟨endsNl_pcBlock c (hall c hc), pcBlock_ne_nil c⟩
  refine ⟨to_py_percent_eq_sepJoin nb, fun b hbm => (hb b hbm).1, ?_⟩
  rw [to_py_percent_eq_sepJoin nb]
  exact endsNl_sepJoin _ hb

/-- Witness for C5 at the hello-world notebook. -/
theorem c5_percent_separation_witness :
    nbHello.cells.all lastLineOk = true
    ∧ to_py_percent nbHello = sepJoin "\n\n" (nbHello.cells.map pcBlock)
    ∧ endsNl (to_py_percent nbHello) = false :=
  ⟨rfl, (c5_percent_separation nbHello rfl).1, (c5_percent_separation nbHello rfl).2.2⟩

/-- Claim C5 counterexample: a valid Document whose first cell's last
source line ends with a newline produces two blank lines (three consecutive
line breaks) between the two cell blocks, refuting the claim as stated for
every Document. -/
theorem c5_blank_line_cex :
    to_py_percent nbTrailingNl = "# %%\na\n\n\n# %%\nb"
    ∧ hasTripleNL (to_py_percent nbTrailingNl) = true := ⟨rfl, rfl⟩

/-- Claim C7: the percent-format output is exactly the algorithm the spec
describes - per markdown cell "# %% [markdown]" plus "# "-prefixed lines,
per code cell "# %%" plus verbatim lines, each block followed by two line
breaks, and exactly the final two characters of the accumulated text
removed - for every Document satisfying the parser invariant that markdown
variants are exactly the cells whose type is "markdown". -/
theorem c7_percent_algorithm (nb : Notebook) (h : nb.cells.all coherentB = true) :
    to_py_percent nb = percentSpec nb := by
  have hall := List.all_eq_true.mp h
  show pyDropLast2 (String.join (nb.cells.map (fun c => pcBlock c ++ "\n\n"))) =
    pyDropLast2 (String.join (nb.cells.map percentSpecBlock))
  congr 1
  congr 1
  apply List.map_congr_left
  intro c hc
  have hcB := hall c hc
  cases c with
  | markdownCell d =>
    simp only [coherentB] at hcB
    simp only [pcBlock, percentSpecBlock, NbCell.type, NbCell.data, NbCell.source, hcB]
    rfl
  | codeCell d ec =>
    simp only [coherentB, Bool.not_eq_true'] at hcB
    simp only [pcBlock, percentSpecBlock, NbCell.type, NbCell.data, NbCell.source, hcB]
    rfl

/-- Witness for C7 at the hello-world notebook. -/
theorem c7_percent_algorithm_witness :
    nbHello.cells.all coherentB = true ∧ to_py_percent nbHello = percentSpec nbHello :=
  ⟨rfl, c7_percent_algorithm nbHello rfl⟩

theorem outlineEnumFromMap (n : Nat) (z : String) :
    ∀ (mid : List String) (j : Nat), 1 ≤ j → j + mid.length = n - 1 →
      (List.enumFrom j (mid ++ [z])).map (fun p => outlineMarker n p.1 ++ p.2)
        = mid.map (fun l => "    │  " ++ l) ++ ["    └  " ++ z] := by
  intro mid
  induction mid with
  | nil =>
    intro j h1 h2
    simp only [List.length_nil, Nat.add_zero] at h2
    subst h2
    have hj0 : ¬ n - 1 = 0 := by omega
    simp [outlineMarker, hj0]
  | cons m mid' ih =>
    intro j h1 h2
    rw [List.cons_append, List.enumFrom_cons, List.map]
    have h2' : (j + 1) + mid'.length = n - 1 := by
      rw [List.length_cons] at h2
      omega
    rw [ih (j + 1) (by omega) h2']
    have hj0 : ¬ j = 0 := by omega
    have hjn : ¬ j = n - 1 := by
      rw [List.length_cons] at h2
      omega
    simp [outlineMarker, hj0, hjn]

theorem outlineSource_single (l : String) : outlineSource [l] = "    | " ++ l := by
  unfold outlineSource
  simp

theorem outlineSource_multi (a : String) (mid : List String) (z : String) :
    outlineSource (a :: mid ++ [z]) =
      ("    ┌  " ++ a) ++ String.join (mid.map (fun l => "    │  " ++ l))
        ++ ("    └  " ++ z) := by
  unfold outlineSource
  have hlen : ¬ (a :: mid ++ [z]).length = 1 := by
    simp [List.length_append]
  rw [if_pos hlen, List.cons_append]
  generalize hgen : (a :: (mid ++ [z])).length = n
  have hn : n = mid.length + 2 := by
    rw [← hgen]
    simp [List.length_append]
  rw [List.enum_cons, List.map]
  have hmap := outlineEnumFromMap n z mid 1 (le_refl 1) (by omega)
  rw [hmap, strJoin_cons, strJoin_concat]
  have h0 : outlineMarker n 0 = "    ┌  " := by
    simp [outlineMarker]
  rw [h0, strAppend_assoc, strAppend_assoc]
  exact (strAppend_assoc "    ┌  " a (String.join (List.map (fun l => "    │  " ++ l) mid)
    ++ ("    └  " ++ z))).symm

theorem countChar_append (s t : String) (c : Char) :
    countChar (s ++ t) c = countChar s c + countChar t c := by
  simp [countChar, strData_append]

theorem countChar_join (L : List String) (c : Char) :
    countChar (String.join L) c = (L.map (fun s => countChar s c)).sum := by
  induction L with
  | nil => rfl
  | cons x xs ih => rw [strJoin_cons, countChar_append, ih, List.map, List.sum_cons]

theorem noMarkers_count {l : String} (h : noMarkers l = true) {c : Char}
    (hc : (c == '┌' || c == '└' || c == '│' || c == '|') = true) : countChar l c = 0 := by
  apply List.count_eq_zero.mpr
  intro hm
  have := List.all_eq_true.mp h c hm
  rw [hc] at this
  cases this

/-- Claim C8: in the outline rendering of a cell's source, a single-line
source gets the "    | " prefix on that line, exactly once; a source with
two or more lines gets its first line prefixed "    ┌  ", its last line
prefixed "    └  " and every interior line prefixed "    │  ", with exactly
one ┌ and one └ regardless of line count; the occurrence counts assume the
source lines themselves contain no marker characters. -/
theorem c8_outline_markers (src : List String) (hm : src.all noMarkers = true) :
    (∀ l, src = [l] →
      outlineSource src = "    | " ++ l ∧ countChar (outlineSource src) '|' = 1)
    ∧ (∀ a mid z, src = a :: mid ++ [z] →
      outlineSource src =
        ("    ┌  " ++ a) ++ String.join (mid.map (fun l => "    │  " ++ l))
          ++ ("    └  " ++ z)
      ∧ countChar (outlineSource src) '┌' = 1
      ∧ countChar (outlineSource src) '└' = 1) := by
  constructor
  · intro l hl
    subst hl
    have hnm : noMarkers l = true := by
      have := List.all_eq_true.mp hm l (List.mem_cons_self l [])
      exact this
    refine ⟨outlineSource_single l, ?_⟩
    rw [outlineSource_single l, countChar_append]
    rw [noMarkers_count hnm (by decide)]
    rfl
  · intro a mid z hsrc
    subst hsrc
    have hma : noMarkers a = true :=
      List.all_eq_true.mp hm a (List.mem_cons_self a _)
    have hmz : noMarkers z = true :=
      List.all_eq_true.mp hm z (by simp)
    have hmmid : ∀ l ∈ mid, noMarkers l = true := by
      intro l hl
      exact List.all_eq_true.mp hm l (by simp [hl])
    refine ⟨outlineSource_multi a mid z, ?_, ?_⟩
    · rw [outlineSource_multi a mid z, countChar_append, countChar_append,
        countChar_append, countChar_append, countChar_join]
      rw [noMarkers_count hma (by decide), noMarkers_count hmz (by decide)]
      have hsum : ((mid.map (fun l => "    │  " ++ l)).map
          (fun s => countChar s '┌')).sum = 0 := by
        apply List.sum_eq_zero
        intro x hx
        obtain ⟨s, hs, rfl⟩ := List.mem_map.mp hx
        obtain ⟨l, hl, rfl⟩ := List.mem_map.mp hs
        rw [countChar_append, noMarkers_count (hmmid l hl) (by decide)]
        rfl
      rw [hsum]
      rfl
    · rw [outlineSource_multi a mid z, countChar_append, countChar_append,
        countChar_append, countChar_append, countChar_join]
      rw [noMarkers_count hma (by decide), noMarkers_count hmz (by decide)]
      have hsum : ((mid.map (fun l => "    │  " ++ l)).map
          (fun s => countChar s '└')).sum = 0 := by
        apply List.sum_eq_zero
        intro x hx
        obtain ⟨s, hs, rfl⟩ := List.mem_map.mp hx
        obtain ⟨l, hl, rfl⟩ := List.mem_map.mp hs
        rw [countChar_append, noMarkers_count (hmmid l hl) (by decide)]
        rfl
      rw [hsum]
      rfl

/-- Witness for C8 at a one-line and a three-line source. -/
theorem c8_outline_markers_witness :
    (["alpha"] : List String).all noMarkers = true
    ∧ outlineSource ["alpha"] = "    | " ++ "alpha"
    ∧ countChar (outlineSource ["alpha"]) '|' = 1
    ∧ (["a\n", "b\n", "c"] : List String).all noMarkers = true
    ∧ outlineSource ["a\n", "b\n", "c"] =
        ("    ┌  " ++ "a\n") ++ String.join (["b\n"].map (fun l => "    │  " ++ l))
          ++ ("    └  " ++ "c")
    ∧ countChar (outlineSource ["a\n", "b\n", "c"]) '┌' = 1 := by
  refine ⟨rfl, ?_, ?_, rfl, ?_, ?_⟩
  · exact (((c8_outline_markers ["alpha"] rfl).1) "alpha" rfl).1
  · exact (((c8_outline_markers ["alpha"] rfl).1) "alpha" rfl).2
  · exact (((c8_outline_markers ["a\n", "b\n", "c"] rfl).2) "a\n" ["b\n"] "c" rfl).1
  · exact (((c8_outline_markers ["a\n", "b\n", "c"] rfl).2) "a\n" ["b\n"] "c" rfl).2.1

theorem nl_data : ("\n" : String).data = ['\n'] := rfl

theorem firstLine_header (H T : String)
    (hH : H.data.all (fun c => !(c == '\n')) = true) :
    firstLine (pyDropLast1 (H ++ "\n" ++ T)) = H := by
  have hHp : ∀ c ∈ H.data, (fun c => !(c == '\n')) c = true := List.all_eq_true.mp hH
  apply stringExt
  show List.takeWhile (fun c => !(c == '\n'))
    (List.take ((H ++ "\n" ++ T).data.length - 1) (H ++ "\n" ++ T).data) = H.data
  have hD : (H ++ "\n" ++ T).data = H.data ++ ('\n' :: T.data) := by
    rw [strData_append, strData_append, nl_data, List.append_assoc]
    rfl
  rw [hD, List.length_append]
  have hlen : H.data.length + ('\n' :: T.data).length - 1 = H.data.length + T.data.length := by
    simp
  rw [hlen, List.take_append]
  cases hT : T.data with
  | nil =>
    simp only [List.length_nil, List.take_zero, List.append_nil]
    exact List.takeWhile_eq_self_iff.mpr hHp
  | cons c rest =>
    have : List.take (c :: rest).length ('\n' :: c :: rest) =
        '\n' :: List.take rest.length (c :: rest) := by
      rw [List.length_cons, List.take_succ_cons]
    rw [this, List.takeWhile_append_of_pos hHp]
    simp [List.takeWhile_cons]

/-- Claim C4 counterexample: for the 4.5 example Document, the first line
of the outline output is "Jupyter Notebook v4.5", not "Notebook v4.5" as
the spec states (the source and its doctest both emit the "Jupyter "
prefix). -/
theorem c4_first_line_cex :
    outline nbHello = Except.ok
      "Jupyter Notebook v4.5\n└─▶ Markdown cell #a9541506\n    ┌  Hello world!\n    │  ============\n    └  Print `Hello world!`:\n└─▶ Code cell #b777420a (1)\n    | print(\"Hello world!\")\n└─▶ Markdown cell #a23ab5ac\n    | Goodbye! 👋"
    ∧ firstLine
      "Jupyter Notebook v4.5\n└─▶ Markdown cell #a9541506\n    ┌  Hello world!\n    │  ============\n    └  Print `Hello world!`:\n└─▶ Code cell #b777420a (1)\n    | print(\"Hello world!\")\n└─▶ Markdown cell #a23ab5ac\n    | Goodbye! 👋"
      = "Jupyter Notebook v4.5"
    ∧ ¬ ("Jupyter Notebook v4.5" = "Notebook v4.5") := by
  refine ⟨rfl, rfl, ?_⟩
  decide

/-- Claim C4 (amended): for every Document whose version string contains no
line break, the first line of the outline output is exactly
"Jupyter Notebook v{major}.{minor}" - the spec omitted the "Jupyter "
prefix that the code and its doctest emit. -/
theorem c4_first_line (nb : Notebook) (s : String) (h : outline nb = Except.ok s)
    (hv : nb.version.data.all (fun c => !(c == '\n')) = true) :
    firstLine s = "Jupyter Notebook v" ++ nb.version := by
  unfold outline at h
  cases hm : nb.cells.mapM outlineCell with
  | error e => rw [hm] at h; cases h
  | ok blocks =>
    rw [hm] at h
    have hs : pyDropLast1 ("Jupyter Notebook v" ++ nb.version ++ "\n"
        ++ String.join blocks) = s := by
      simpa using h
    rw [← hs]
    apply firstLine_header ("Jupyter Notebook v" ++ nb.version) (String.join blocks)
    rw [strData_append, List.all_append]
    rw [hv]
    rfl

/-- Witness for C4 at the hello-world notebook. -/
theorem c4_first_line_witness :
    outline nbHello = Except.ok
      "Jupyter Notebook v4.5\n└─▶ Markdown cell #a9541506\n    ┌  Hello world!\n    │  ============\n    └  Print `Hello world!`:\n└─▶ Code cell #b777420a (1)\n    | print(\"Hello world!\")\n└─▶ Markdown cell #a23ab5ac\n    | Goodbye! 👋"
    ∧ nbHello.version.data.all (fun c => !(c == '\n')) = true
    ∧ firstLine
      "Jupyter Notebook v4.5\n└─▶ Markdown cell #a9541506\n    ┌  Hello world!\n    │  ============\n    └  Print `Hello world!`:\n└─▶ Code cell #b777420a (1)\n    | print(\"Hello world!\")\n└─▶ Markdown cell #a23ab5ac\n    | Goodbye! 👋"
      = "Jupyter Notebook v" ++ nbHello.version :=
  ⟨rfl, rfl, c4_first_line nbHello _ rfl rfl⟩

/-- Claim C3: constructing a Cell from a mapping missing a required key
(id, source, cell_type - the first missing key in read order determines the
error), and constructing a Notebook from a mapping missing nbformat,
nbformat_minor or cells, fails at construction time with the lookup error
for that key; the embedding models the MissingFieldError and
MalformedDocumentError kinds of the spec as the KeyError the code raises,
and an error result means no partial object is returned.  Both concrete
cell constructors propagate the failure. -/
theorem c3_missing_keys :
    (∀ d : List (String × J), d.lookup "id" = none →
      Cell.init d = Except.error (PyError.keyError "id"))
    ∧ (∀ d : List (String × J), ∀ v, d.lookup "id" = some v → d.lookup "source" = none →
      Cell.init d = Except.error (PyError.keyError "source"))
    ∧ (∀ d : List (String × J), ∀ v w, d.lookup "id" = some v → d.lookup "source" = some w →
      d.lookup "cell_type" = none →
      Cell.init d = Except.error (PyError.keyError "cell_type"))
    ∧ (∀ d : List (String × J), ∀ e, Cell.init d = Except.error e →
      MarkdownCell.init d = Except.error e ∧ CodeCell.init d = Except.error e)
    ∧ (∀ d : List (String × J), d.lookup "nbformat" = none →
      Notebook.init d = Except.error (PyError.keyError "nbformat"))
    ∧ (∀ d : List (String × J), ∀ v, d.lookup "nbformat" = some v →
      d.lookup "nbformat_minor" = none →
      Notebook.init d = Except.error (PyError.keyError "nbformat_minor"))
    ∧ (∀ d : List (String × J), ∀ v w, d.lookup "nbformat" = some v →
      d.lookup "nbformat_minor" = some w → d.lookup "cells" = none →
      Notebook.init d = Except.error (PyError.keyError "cells")) := by
  refine ⟨?_, ?_, ?_, ?_, ?_, ?_, ?_⟩
  · intro d h
    simp [Cell.init, dget, h]
  · intro d v h1 h2
    simp [Cell.init, dget, h1, h2]
  · intro d v w h1 h2 h3
    simp [Cell.init, dget, h1, h2, h3]
  · intro d e h
    exact ⟨by simp [MarkdownCell.init, h], by simp [CodeCell.init, h]⟩
  · intro d h
    simp [Notebook.init, dget, h]
  · intro d v h1 h2
    simp [Notebook.init, dget, h1, h2]
  · intro d v w h1 h2 h3
    simp [Notebook.init, dget, h1, h2, h3]

/-- Witness for C3 at concrete mappings missing each required key. -/
theorem c3_missing_keys_witness :
    Cell.init [] = Except.error (PyError.keyError "id")
    ∧ Cell.init [("id", J.str "x")] = Except.error (PyError.keyError "source")
    ∧ Cell.init [("id", J.str "x"), ("source", J.list [])]
        = Except.error (PyError.keyError "cell_type")
    ∧ MarkdownCell.init [] = Except.error (PyError.keyError "id")
    ∧ CodeCell.init [] = Except.error (PyError.keyError "id")
    ∧ Notebook.init [] = Except.error (PyError.keyError "nbformat")
    ∧ Notebook.init [("nbformat", J.int 4)]
        = Except.error (PyError.keyError "nbformat_minor")
    ∧ Notebook.init [("nbformat", J.int 4), ("nbformat_minor", J.int 5)]
        = Except.error (PyError.keyError "cells") := by
  have p1 := c3_missing_keys.1 [] rfl
  have p2 := c3_missing_keys.2.1 [("id", J.str "x")] (J.str "x") rfl rfl
  have p3 := c3_missing_keys.2.2.1 [("id", J.str "x"), ("source", J.list [])]
    (J.str "x") (J.list []) rfl rfl rfl
  have p4 := c3_missing_keys.2.2.2.1 [] (PyError.keyError "id") p1
  have p5 := c3_missing_keys.2.2.2.2.1 [] rfl
  have p6 := c3_missing_keys.2.2.2.2.2.1 [("nbformat", J.int 4)] (J.int 4) rfl rfl
  have p7 := c3_missing_keys.2.2.2.2.2.2 [("nbformat", J.int 4), ("nbformat_minor", J.int 5)]
    (J.int 4) (J.int 5) rfl rfl rfl
  exact ⟨p1, p2, p3, p4.1, p4.2, p5, p6, p7⟩

/-- Claim C6 counterexample: a Document parsed from a mapping whose code
cell has a null execution count outlines that cell with " (None)" in the
header, not with empty parentheses: the output contains "(None)" and
contains no "()" substring. -/
theorem c6_null_exec_cex :
    Notebook.init docNullCount = Except.ok nbNullCount
    ∧ outline nbNullCount = Except.ok
      "Jupyter Notebook v4.5\n└─▶ Code cell #b777420a (None)\n    | print(1)"
    ∧ hasSub "Jupyter Notebook v4.5\n└─▶ Code cell #b777420a (None)\n    | print(1)"
        "(None)" = true
    ∧ hasSub "Jupyter Notebook v4.5\n└─▶ Code cell #b777420a (None)\n    | print(1)"
        "()" = false := ⟨rfl, rfl, rfl, rfl⟩

/-- Claim C6 (amended): for every code cell of type "code" whose stored
execution count is null, the outline renders the header without failing,
with the parentheses containing the text "None" (the Python formatting of
null) rather than nothing. -/
theorem c6_null_exec (d : CellData) (h : d.type = "code") :
    outlineCell (NbCell.codeCell d (some J.null)) =
      Except.ok ("└─▶ Code cell #" ++ d.id ++ " (None)\n"
        ++ outlineSource d.source ++ "\n") := by
  cases d with
  | mk i src ty =>
    simp only [CellData.type] at h
    subst h
    show Except.ok _ = Except.ok _
    congr 1
    apply stringExt
    simp only [strData_append, List.append_assoc]
    rfl

/-- Witness for C6 at a concrete code cell. -/
theorem c6_null_exec_witness :
    (⟨"b777420a", ["print(1)"], "code"⟩ : CellData).type = "code"
    ∧ outlineCell (NbCell.codeCell ⟨"b777420a", ["print(1)"], "code"⟩ (some J.null)) =
      Except.ok ("└─▶ Code cell #" ++ "b777420a" ++ " (None)\n"
        ++ outlineSource ["print(1)"] ++ "\n") :=
  ⟨rfl, c6_null_exec ⟨"b777420a", ["print(1)"], "code"⟩ rfl⟩

/-- Claim C1 (code bug): the serialize-then-reparse round trip does not
preserve the format version for every valid Document.  Parsing nbformat 10
with nbformat_minor 2 gives version "10.2"; serializing slices single
characters out of that string, emitting nbformat 1; re-parsing yields a
Document with version "1.2".  The source's own review comment flags the
slicing as broken for two-digit versions. -/
theorem c1_roundtrip_bug :
    Notebook.init docTenTwo = Except.ok ⟨"10.2", []⟩
    ∧ serialize ⟨"10.2", []⟩ = Except.ok (J.dict
      [("cells", J.list []), ("metadata", J.dict []),
       ("nbformat", J.int 1), ("nbformat_minor", J.int 2)])
    ∧ Notebook.init
      [("cells", J.list []), ("metadata", J.dict []),
       ("nbformat", J.int 1), ("nbformat_minor", J.int 2)] = Except.ok ⟨"1.2", []⟩
    ∧ ¬ (("1.2" : String) = "10.2") := ⟨rfl, rfl, rfl, by decide⟩

/-- Claim C2 (code bug): serialize re-derives the version integers by
indexing into the formatted version string instead of using stored
components: with nbformat 10 and nbformat_minor 34 the Document's version
is "10.34", yet serialize emits nbformat 1 and nbformat_minor 4. -/
theorem c2_version_slicing_bug :
    Notebook.init docTenThirtyFour = Except.ok ⟨"10.34", []⟩
    ∧ serialize ⟨"10.34", []⟩ = Except.ok (J.dict
      [("cells", J.list []), ("metadata", J.dict []),
       ("nbformat", J.int 1), ("nbformat_minor", J.int 4)])
    ∧ ¬ ((1 : Int) = 10) ∧ ¬ ((4 : Int) = 34) := ⟨rfl, rfl, by decide, by decide⟩

/-- Claim C10: a valid input mapping containing a cell of type "raw" with
no execution_count key parses successfully - the fallback dispatch builds a
CodeCell and reads execution_count only when the type is exactly "code" -
but serialize applied to the resulting Document fails, because its
non-markdown branch reads the never-assigned execution_count attribute. -/
theorem c10_raw_cell_serialize_fails :
    Notebook.init docRawCell = Except.ok nbRawCell
    ∧ serialize nbRawCell = Except.error (PyError.attributeError "execution_count") :=
  ⟨rfl, rfl⟩

/-- Claim C9 (code bug): Serializer.to_file writes str(serialize()) - the
Python repr of the in-memory dict with single-quoted strings - rather than
the canonical JSON text encoding: for a one-cell notebook the written text
is the repr below, which a standard JSON reader rejects, while the JSON
encoding of the very same mapping is accepted.  The source's own review
comment says json.dump must be used instead of str. -/
theorem c9_to_file_not_json :
    serializerToFileText nbSimpleCode = Except.ok reprTextSimpleCode
    ∧ jsonWf reprTextSimpleCode = false
    ∧ jsonWf jsonTextSimpleCode = true := ⟨rfl, rfl, rfl⟩
